import Mathlib

/-!
Verification of the Arthemy Live-Tuner (Z-Image / ZIT) ComfyUI weight-tuning
nodes against their design specification.

Modelling conventions.  Every tensor operation performed by the repository is
elementwise (multiply by a scalar, add a scaled copy, restore a stored copy),
so a weight tensor is modelled by one representative element, a rational
number; Python floats are modelled as exact rationals (all constants in the
sources are decimal literals, so every computation in scope is exact).
Python strings are Lean `String`s, `in`/`startswith`/`split`/`re.search` are
re-implemented below, and dictionaries are modelled by functions into
`Option` or by association lists, as noted at each definition.
-/

/-- Character list `pat` occurs at the head of `s` (helper for the Python
substring and startswith tests). -/
def isPreL : List Char → List Char → Bool
  | [], _ => true
  | _ :: _, [] => false
  | a :: as, b :: bs => a == b && isPreL as bs

/-- Character list `pat` occurs somewhere in `s`. -/
def hasSubL (pat : List Char) : List Char → Bool
  | [] => pat.isEmpty
  | c :: rest => isPreL pat (c :: rest) || hasSubL pat rest

/-- Python `pat in key` (substring containment). -/
def hasSub (key pat : String) : Bool := hasSubL pat.toList key.toList

/-- Python `key.startswith(pat)`. -/
def startsWithP (key pat : String) : Bool := isPreL pat.toList key.toList

/-- Numeric value of a list of decimal digit characters. -/
def natOfDigits (cs : List Char) : Nat := cs.foldl (fun n c => 10 * n + (c.toNat - 48)) 0

/-- Python `int(s)` on the strings that occur as key segments: all-digit
strings parse, anything else raises (modelled as `none`). -/
def pyInt (s : String) : Option Nat :=
  let cs := s.toList
  if cs ≠ [] ∧ cs.all Char.isDigit then some (natOfDigits cs) else none

/-- After a matched literal token, the regex tail `(\d+)\.`: a nonempty digit
run immediately followed by a literal dot.  Returns the captured number. -/
def numThenDot (cs : List Char) : Option Nat :=
  let ds := cs.takeWhile Char.isDigit
  let rest := cs.dropWhile Char.isDigit
  if ds ≠ [] ∧ rest.head? = some '.' then some (natOfDigits ds) else none

/-- Leftmost search for the literal token `tok` followed by digits and a dot,
the shape of `re.search(r"\.layers\.(\d+)\.", key)` with `tok = ".layers."`
(for this pattern a shorter digit run can never be followed by a dot, so
regex backtracking cannot produce a match this scan misses). -/
def scanTok (tok : List Char) : List Char → Option Nat
  | [] => none
  | c :: rest =>
    if isPreL tok (c :: rest) then
      match numThenDot (List.drop tok.length (c :: rest)) with
      | some n => some n
      | none => scanTok tok rest
    else scanTok tok rest

/-- Layer-index extraction shared by all Qwen tuners:
`re.search(r"\.layers\.(\d+)\.", key) or re.search(r"\.h\.(\d+)\.", key)`,
then `int(match.group(1))`. -/
def qwenFindIdx (key : String) : Option Nat :=
  match scanTok ".layers.".toList key.toList with
  | some n => some n
  | none => scanTok ".h.".toList key.toList

/-! ### Value transforms (one per source file family) -/

/-- The `get_target_weight` helper of `arthemy_model_live_tuner_zit.py` and
`arthemy_model_live_tuner_zit_LAB.py` (identical bodies): identity in
`"Real Value"` mode, otherwise the quadratic soft curve below 1.0 and the
damped linear curve above it. -/
def zit_get_target_weight (mode : String) (w : ℚ) : ℚ :=
  if mode = "Real Value" then w
  else if w ≤ 1 then max 0 ((-1.02) * w ^ 2 + 2.02 * w)
  else 1 + (w - 1) * 0.133

/-- The `get_val` helper of `qwen_te_arthemy_tuner.py` (both tuner classes):
identity in `"Real Value"` mode, otherwise `0.8 + 0.2 * v`. -/
def qwen_get_val (mode : String) (v : ℚ) : ℚ :=
  if mode = "Real Value" then v else 0.8 + 0.2 * v

/-- The `get_target_weight` helper of `arthemy_qwenTE_live_tuner_zit.py` and
`arthemy_qwenTE_live_tuner_zit_LAB.py` (identical bodies, same curve as
`qwen_get_val`). -/
def qwenLive_get_target_weight (mode : String) (w : ℚ) : ℚ :=
  if mode = "Real Value" then w else 0.8 + 0.2 * w

/-- The `get_val` helper of `ArthemyZImage_Tuner_Simple.tune`
(`zimage_arthemy_tuner.py`): identity in `"Real Value"` mode, otherwise the
linear soft curve `1.0 + (v - 1.0) * 0.2`. -/
def zimage_get_val (mode : String) (v : ℚ) : ℚ :=
  if mode = "Real Value" then v else 1 + (v - 1) * 0.2

/-- The `calc_final` helper of `ArthemyZImage_Tuner_Simple.tune`: applies
`get_val`, then multiplies by `base_strength` only in `"Real Value"` mode
(in `"Soft Value"` mode `base_strength` is not applied). -/
def zimage_calc_final (mode : String) (base_strength v : ℚ) : ℚ :=
  let x := zimage_get_val mode v
  if mode = "Real Value" then x * base_strength else x

/-! ### ArthemyQwenTunerSimple (`qwen_te_arthemy_tuner.py`) -/

/-- Control name of the zone governing layer `idx` in the Simple Qwen tuner's
`group_inputs` table: six contiguous six-layer zones covering `[0, 36)`. -/
def qwenZoneName (idx : Nat) : Option String :=
  if idx < 6 then some "Zone_1_Embedding_00_05"
  else if idx < 12 then some "Zone_2_Syntax_Low_06_11"
  else if idx < 18 then some "Zone_3_Syntax_High_12_17"
  else if idx < 24 then some "Zone_4_Semantics_18_23"
  else if idx < 30 then some "Zone_5_Context_24_29"
  else if idx < 36 then some "Zone_6_Abstract_30_35"
  else none

/-- The `layer_scales` dictionary of `tune_qwen_simple` as a function: the
group loop writes `get_val(kwargs.get(group_name, 1.0))` at every index of
each zone's range; the six ranges are disjoint and cover exactly `[0, 36)`,
so the dictionary is this function.  `kw` models `kwargs`. -/
def qwenSimpleLayerScale (mode : String) (kw : String → Option ℚ) (idx : Nat) : Option ℚ :=
  (qwenZoneName idx).map fun g => qwen_get_val mode ((kw g).getD 1)

/-- The `target_scale = layer_scales[idx] * w_base` computation of
`tune_qwen_simple` (with `w_base = get_val(base_strength)`). -/
def qwenSimpleTargetScale (mode : String) (base : ℚ) (kw : String → Option ℚ)
    (idx : Nat) : Option ℚ :=
  (qwenSimpleLayerScale mode kw idx).map (· * qwen_get_val mode base)

/-- One iteration of the patch loop of `tune_qwen_simple` for state-dict key
`key` holding tensor `t`: `none` when the key is skipped (norm/bias marker,
no layer-index match, or zero strength), otherwise the registered patch
`(reference_tensor, strength)` — the reference tensor is the original
weight, and `add_patches` is called with extra factor `1.0`. -/
def qwenSimpleKeyPatch (mode : String) (base : ℚ) (kw : String → Option ℚ)
    (key : String) (t : ℚ) : Option (ℚ × ℚ) :=
  if hasSub key "norm" || hasSub key "bias" then none
  else
    match qwenFindIdx key with
    | none => none
    | some idx =>
      match qwenSimpleTargetScale mode base kw idx with
      | none => none
      | some target =>
        let strength := target - 1
        if strength ≠ 0 then some (t, strength) else none

/-- `ArthemyQwenTunerSimple.tune_qwen_simple` restricted to its observable
effect: the list of patches `(key, reference_tensor, strength)` registered on
the cloned CLIP, in state-dict order. -/
def tune_qwen_simple (mode : String) (base : ℚ) (kw : String → Option ℚ)
    (sd : List (String × ℚ)) : List (String × ℚ × ℚ) :=
  sd.filterMap fun kv => (qwenSimpleKeyPatch mode base kw kv.1 kv.2).map fun p => (kv.1, p)

/-! ### ArthemyQwenLiveTunerZImage (`arthemy_qwenTE_live_tuner_zit.py`) -/

/-- Band name of layer `idx` in the live Qwen tuner's `bands` table: four
contiguous nine-layer bands covering `[0, 36)`. -/
def qwenBandName (idx : Nat) : Option String :=
  if idx < 9 then some "LLM_Syntax_Parsing"
  else if idx < 18 then some "LLM_Literal_Meaning"
  else if idx < 27 then some "LLM_Contextual_Web"
  else if idx < 36 then some "LLM_Abstract_Concept"
  else none

/-- The `layer_map` dictionary of `tune_qwen` as a function: each band's loop
writes `get_target_weight(kwargs.get(name, 1.0)) * w_base` at every index of
its range (disjoint ranges covering `[0, 36)`). -/
def qwenLiveLayerMap (mode : String) (base : ℚ) (kw : String → Option ℚ)
    (idx : Nat) : Option ℚ :=
  (qwenBandName idx).map fun g =>
    qwenLive_get_target_weight mode ((kw g).getD 1) * qwenLive_get_target_weight mode base

/-- One iteration of the patch loop of `tune_qwen` (live, non-Lab) for key
`key` holding tensor `t`: skipped keys give `none`, matched keys with nonzero
strength give the registered `(reference_tensor, strength)` pair. -/
def qwenLiveKeyPatch (mode : String) (base : ℚ) (kw : String → Option ℚ)
    (key : String) (t : ℚ) : Option (ℚ × ℚ) :=
  if hasSub key "norm" || hasSub key "bias" then none
  else
    match qwenFindIdx key with
    | none => none
    | some idx =>
      match qwenLiveLayerMap mode base kw idx with
      | none => none
      | some ts =>
        let strength := ts - 1
        if strength ≠ 0 then some (t, strength) else none

/-! ### ArthemyQwenLiveTunerZImageLab (`arthemy_qwenTE_live_tuner_zit_LAB.py`) -/

/-- Slider name generated for layer `idx` by the Lab live tuner's
`LAYER_CONFIG` loop: the band name for the index followed by `_L` and the
two-digit index. -/
def qwenLabKeyName (idx : Nat) : Option String :=
  if idx < 36 then
    some ((if idx < 9 then "LLM_Syntax_Parsing"
           else if idx < 18 then "LLM_Literal_Meaning"
           else if idx < 27 then "LLM_Contextual_Web"
           else "LLM_Abstract_Concept")
          ++ "_L" ++ (if idx < 10 then "0" else "") ++ toString idx)
  else none

/-- The `layer_scales` dictionary of `tune_qwen_lab` as a function: for each
of the 36 configured layers, `get_target_weight(kwargs.get(name, 1.0))`. -/
def qwenLabLayerScale (mode : String) (kw : String → Option ℚ) (idx : Nat) : Option ℚ :=
  (qwenLabKeyName idx).map fun n => qwenLive_get_target_weight mode ((kw n).getD 1)

/-- One iteration of the patch loop of `tune_qwen_lab` for key `key` holding
tensor `t`.  Unlike every other patch tuner, `target_scale` starts at
`w_base` and is only replaced by `layer_scales[idx] * w_base` when a layer
index is matched, so non-indexed keys still receive the base scale. -/
def qwenLabKeyPatch (mode : String) (base : ℚ) (kw : String → Option ℚ)
    (key : String) (t : ℚ) : Option (ℚ × ℚ) :=
  if hasSub key "norm" || hasSub key "bias" then none
  else
    let wb := qwenLive_get_target_weight mode base
    let target :=
      match qwenFindIdx key with
      | some idx =>
        match qwenLabLayerScale mode kw idx with
        | some ls => ls * wb
        | none => wb
      | none => wb
    let strength := target - 1
    if strength ≠ 0 then some (t, strength) else none

/-! ### ArthemyZImage_Tuner_Simple (`zimage_arthemy_tuner.py`) -/

/-- The ten per-control multipliers of `ArthemyZImage_Tuner_Simple.tune`
after `calc_final` (the `params` dictionary). -/
structure ZimageParams where
  b1 : ℚ
  b2 : ℚ
  b3 : ℚ
  b4 : ℚ
  b5 : ℚ
  b6 : ℚ
  g_att : ℚ
  g_mlp : ℚ
  emb : ℚ
  ref : ℚ
deriving DecidableEq

/-- The `params` dictionary of `ArthemyZImage_Tuner_Simple.tune`: every user
input passed through `calc_final`. -/
def zimageSimpleParams (mode : String) (base b1 b2 b3 b4 b5 b6 ga gm em rf : ℚ) :
    ZimageParams :=
  { b1 := zimage_calc_final mode base b1
    b2 := zimage_calc_final mode base b2
    b3 := zimage_calc_final mode base b3
    b4 := zimage_calc_final mode base b4
    b5 := zimage_calc_final mode base b5
    b6 := zimage_calc_final mode base b6
    g_att := zimage_calc_final mode base ga
    g_mlp := zimage_calc_final mode base gm
    emb := zimage_calc_final mode base em
    ref := zimage_calc_final mode base rf }

/-- Python `s.split(sep)` for a one-character separator, on character
lists. -/
def splitChar (sep : Char) : List Char → List (List Char)
  | [] => [[]]
  | c :: rest =>
    let r := splitChar sep rest
    if c = sep then [] :: r
    else
      match r with
      | [] => [[c]]
      | h :: t => (c :: h) :: t

/-- Python `key.split(".")`. -/
def pySplitDot (s : String) : List String := (splitChar '.' s.toList).map fun cs => ⟨cs⟩

/-- Positional layer-index extraction of the Z-Image checkpoint tuners:
`key.startswith("layers.")`, then `int(key.split(".")[1])`, `none` when the
parse raises. -/
def zimageLayerIdx (key : String) : Option Nat :=
  if startsWithP key "layers." then ((pySplitDot key)[1]?).bind pyInt else none

/-- The scale-resolution block of `ArthemyZImage_Tuner_Simple.tune` (Logic 1
to Logic 4): the `(scale, is_target)` pair after the per-key classification.
Indexed keys take the block multiplier for their index (scale 1.0 beyond
index 29) times the attention/feed-forward component multiplier; `embedder`,
`refiner` and `final_layer` keys are classified by substring, `final_layer`
falling back to the last block's scale `b6`. -/
def zimageSimpleResolve (p : ZimageParams) (key : String) : ℚ × Bool :=
  if startsWithP key "layers." then
    match zimageLayerIdx key with
    | some idx =>
      let s0 := if idx ≤ 4 then p.b1
        else if idx ≤ 9 then p.b2
        else if idx ≤ 14 then p.b3
        else if idx ≤ 19 then p.b4
        else if idx ≤ 24 then p.b5
        else if idx ≤ 29 then p.b6
        else 1
      let s1 := if hasSub key "attention" then s0 * p.g_att
        else if hasSub key "feed_forward" then s0 * p.g_mlp
        else s0
      (s1, true)
    | none => (1, false)
  else if hasSub key "embedder" then (p.emb, true)
  else if hasSub key "refiner" then (p.ref, true)
  else if hasSub key "final_layer" then (p.b6, true)
  else (1, false)

/-- One iteration of the state-dict loop of `ArthemyZImage_Tuner_Simple.tune`
on key `key` holding tensor `t`: keys without a `weight`/`bias` marker are
skipped, normalization keys (`norm` or `adaLN`) are skipped unless
`unsafe_tune_normalization` is set, and a resolved target is multiplied in
place only when `abs(scale - 1.0) > 1e-4`. -/
def zimageEntryTune (p : ZimageParams) (unsafe_tune_normalization : Bool)
    (key : String) (t : ℚ) : ℚ :=
  if !(hasSub key "weight") && !(hasSub key "bias") then t
  else if (hasSub key "norm" || hasSub key "adaLN") && !unsafe_tune_normalization then t
  else
    let r := zimageSimpleResolve p key
    if r.2 && decide (|r.1 - 1| > 0.0001) then t * r.1 else t

/-- `ArthemyZImage_Tuner_Simple.tune` on the cloned model's state dict. -/
def zimage_tune_simple (p : ZimageParams) (unsafe_tune_normalization : Bool)
    (sd : List (String × ℚ)) : List (String × ℚ) :=
  sd.map fun kv => (kv.1, zimageEntryTune p unsafe_tune_normalization kv.1 kv.2)

/-! ### Destructive live tuners (`arthemy_model_live_tuner_zit.py` and
`arthemy_model_live_tuner_zit_LAB.py`)

A transformer block is its list of named submodules; only `nn.Linear`
modules carry a governed weight, flagged `isLinear`.  The process-wide
`BACKUP_CACHE` class dictionary is a function from model identity
(`id(backbone)`) to the per-block list of name-to-weight backup
dictionaries. -/

/-- A named submodule as enumerated by `block.named_modules()`: its name,
whether it is an `nn.Linear`, and (for Linear modules) the representative
weight element. -/
structure NModule where
  name : String
  isLinear : Bool
  w : ℚ
deriving DecidableEq

/-- A transformer block: its named submodules in enumeration order. -/
abbrev Block := List NModule

/-- One block's backup dictionary `{name: weight}` in insertion order. -/
abbrev LayerBackup := List (String × ℚ)

/-- The backup stored for one model identity: entry `i` is block `i`'s
backup dictionary. -/
abbrev ModelBackup := List LayerBackup

/-- `BACKUP_CACHE` as a function from model identity. -/
abbrev Cache := Nat → Option ModelBackup

/-- Python dictionary lookup on an insertion-ordered association list:
later insertions shadow earlier ones. -/
def dictGet (bd : LayerBackup) (n : String) : Option ℚ :=
  match bd with
  | [] => none
  | (k, v) :: rest =>
    match dictGet rest n with
    | some r => some r
    | none => if n = k then some v else none

/-- The backup phase for one block: every Linear module's weight is stored
under its name (`layer_backup[name] = module.weight...clone()`). -/
def backupBlock (b : Block) : LayerBackup :=
  (b.filter (·.isLinear)).map fun m => (m.name, m.w)

/-- The restore phase applied to one module: a Linear module whose name is in
the block's backup dictionary gets the stored weight copied back. -/
def restoreMod (bd : LayerBackup) (m : NModule) : NModule :=
  if m.isLinear then
    match dictGet bd m.name with
    | some v => { m with w := v }
    | none => m
  else m

/-- The restore phase for one block. -/
def restoreBlock (bd : LayerBackup) (b : Block) : Block :=
  b.map (restoreMod bd)

/-- The restore phase over the whole container: block `i` is restored from
backup entry `i` when present (`if i in self.BACKUP_CACHE[model_id]`). -/
def restoreBlocks : ModelBackup → List Block → List Block
  | _, [] => []
  | [], b :: bs => b :: bs
  | bd :: bk, b :: bs => restoreBlock bd b :: restoreBlocks bk bs

/-- In-place scaling of one module: `module.weight.data.mul_(scale)` for
Linear modules only. -/
def scaleMod (s : ℚ) (m : NModule) : NModule :=
  if m.isLinear then { m with w := m.w * s } else m

/-- In-place scaling of every Linear weight of a block. -/
def scaleBlock (s : ℚ) (b : Block) : Block :=
  b.map (scaleMod s)

/-- The injection phase: block `i` is multiplied by `lw i` unless that scale
is exactly `1.0` (`if scale == 1.0: continue`). -/
def applyScales (lw : Nat → ℚ) : Nat → List Block → List Block
  | _, [] => []
  | i, b :: bs => (if lw i = 1 then b else scaleBlock (lw i) b) :: applyScales lw (i + 1) bs

/-- Number of Linear submodules of a block (`layer_hits`). -/
def linearCount (b : Block) : Nat := (b.filter (·.isLinear)).length

/-- The `injected_layers` counter of the injection phase: blocks with a
non-identity scale and at least one Linear submodule. -/
def countInjected (lw : Nat → ℚ) : Nat → List Block → Nat
  | _, [] => 0
  | i, b :: bs =>
    (if lw i ≠ 1 ∧ 0 < linearCount b then 1 else 0) + countInjected lw (i + 1) bs

/-- The diffusion backbone object: the three attribute names probed for the
layer container (`layers`, `joint_blocks`, `blocks`) and the object identity
`id(backbone)` used as the backup key. -/
structure Backbone where
  layers : Option (List Block)
  joint_blocks : Option (List Block)
  blocks : Option (List Block)
  bid : Nat
deriving DecidableEq

/-- The `hasattr` probe chain of the tune methods: first of `layers`,
`joint_blocks`, `blocks` that is present. -/
def Backbone.container (bb : Backbone) : Option (List Block) :=
  match bb.layers with
  | some c => some c
  | none =>
    match bb.joint_blocks with
    | some c => some c
    | none => bb.blocks

/-- Writing the (in-place mutated) container back through the attribute the
probe chain found. -/
def Backbone.setContainer (bb : Backbone) (c : List Block) : Backbone :=
  if bb.layers.isSome then { bb with layers := some c }
  else if bb.joint_blocks.isSome then { bb with joint_blocks := some c }
  else { bb with blocks := some c }

/-- A ComfyUI MODEL handle; `diffusion_model` collapses the
`model.model.diffusion_model` attribute path, `none` modelling the
`AttributeError` caught by the tune methods. -/
structure ZModel where
  diffusion_model : Option Backbone
deriving DecidableEq

/-- Backup-restore-inject core shared verbatim by `tune_zimage` and
`tune_zimage_lab` once the layer container `lc` and the backup `bk` for this
model identity are in hand: restore every governed weight from the backup,
then scale block `i` by `lw i`, and report the mutated model, the info
string and the (possibly extended) cache. -/
def runTuneOut (lw : Nat → ℚ) (tag mode : String) (bb : Backbone) (lc : List Block)
    (bk : ModelBackup) (cache : Cache) : ZModel × String × Cache :=
  let restored := restoreBlocks bk lc
  let tuned := applyScales lw 0 restored
  (⟨some (bb.setContainer tuned)⟩,
   tag ++ " | Mode: " ++ mode ++ " | Layers Modulated: "
       ++ toString (countInjected lw 0 restored),
   cache)

/-- The common body of `tune_zimage` / `tune_zimage_lab`: locate the layer
container (soft failure otherwise), take the first-encounter snapshot if
this model identity is new, then run the restore-and-inject core. -/
def runTune (lw : Nat → ℚ) (tag mode : String) (model : ZModel) (cache : Cache) :
    ZModel × String × Cache :=
  match model.diffusion_model with
  | none => (model, "Error: Model Access Failed", cache)
  | some bb =>
    match bb.container with
    | none => (model, "Error: Unknown Model Structure", cache)
    | some lc =>
      match cache bb.bid with
      | some bk => runTuneOut lw tag mode bb lc bk cache
      | none =>
        let fresh := lc.map backupBlock
        runTuneOut lw tag mode bb lc fresh (fun n => if n = bb.bid then some fresh else cache n)

/-- Stage name governing layer `idx` in the live tuner's `GROUP_MAP`: five
contiguous six-layer stages covering `[0, 30)`. -/
def zitStageName (idx : Nat) : Option String :=
  if idx < 6 then some "STAGE_1_Semantic_Seeding"
  else if idx < 12 then some "STAGE_2_Spatial_Layout"
  else if idx < 18 then some "STAGE_3_Morphological_Form"
  else if idx < 24 then some "STAGE_4_Volumetric_Lighting"
  else if idx < 30 then some "STAGE_5_Surface_Refinement"
  else none

/-- The `layer_weights` dictionary of `tune_zimage` as a function (the five
stage ranges are disjoint and cover `[0, 30)`), with the dictionary default
`layer_weights.get(i, 1.0)` for indices beyond the map. -/
def zitLayerWeights (mode : String) (base : ℚ) (kw : String → Option ℚ) (idx : Nat) : ℚ :=
  match zitStageName idx with
  | some g => zit_get_target_weight mode ((kw g).getD 1) * zit_get_target_weight mode base
  | none => 1

/-- `ArthemyLiveModelTunerZImage.tune_zimage`. -/
def tune_zimage (model : ZModel) (mode : String) (base : ℚ) (kw : String → Option ℚ)
    (cache : Cache) : ZModel × String × Cache :=
  runTune (zitLayerWeights mode base kw) "Z-Image Active" mode model cache

/-- Slider name generated for layer `idx` by the Lab live tuner
(`LAYER_TO_NAME_MAP`): the stage name followed by `_L` and the two-digit
index, for the 30 configured layers. -/
def zitLabKeyName (idx : Nat) : Option String :=
  if idx < 30 then
    some ((zitStageName idx).getD "" ++ "_L" ++ (if idx < 10 then "0" else "") ++ toString idx)
  else none

/-- Per-layer final scale of `tune_zimage_lab`: the slider value for the
layer (default 1.0 when the index is beyond `LAYER_TO_NAME_MAP`) through
`get_target_weight`, times `w_base`. -/
def zitLabLayerWeights (mode : String) (base : ℚ) (kw : String → Option ℚ) (idx : Nat) : ℚ :=
  let slider := match zitLabKeyName idx with
    | some k => (kw k).getD 1
    | none => 1
  zit_get_target_weight mode slider * zit_get_target_weight mode base

/-- `ArthemyLiveModelTunerZImageLab.tune_zimage_lab`. -/
def tune_zimage_lab (model : ZModel) (mode : String) (base : ℚ) (kw : String → Option ℚ)
    (cache : Cache) : ZModel × String × Cache :=
  runTune (zitLabLayerWeights mode base kw) "Z-Image Lab" mode model cache

/-- A backup dictionary covers a block when every Linear module's name is a
key of it (as the dictionary written by the backup phase always is). -/
def blockCovered (bd : LayerBackup) (b : Block) : Prop :=
  ∀ m ∈ b, m.isLinear = true → (dictGet bd m.name).isSome

/-- A stored model backup covers a container when it has an entry covering
each block. -/
def covers : ModelBackup → List Block → Prop
  | _, [] => True
  | [], _ :: _ => False
  | bd :: bk, b :: bs => blockCovered bd b ∧ covers bk bs

/-- The cache invariant of the backup store: whatever backup is already
recorded under this model's identity was taken from this model's container,
so it covers every governed weight (the backup phase establishes exactly
this shape on first encounter). -/
def cacheOk (model : ZModel) (cache : Cache) : Prop :=
  ∀ bb lc bk, model.diffusion_model = some bb → bb.container = some lc →
    cache bb.bid = some bk → covers bk lc

/-! ### ArthemyQwenSaver (`qwen_te_arthemy_tuner.py`) -/

/-- Python `str.replace(old, new)`: replace every non-overlapping occurrence
of `old`, scanning left to right. -/
def replL (old new : List Char) : List Char → List Char
  | [] => []
  | c :: rest =>
    if h : old ≠ [] ∧ isPreL old (c :: rest) = true then
      new ++ replL old new (List.drop old.length (c :: rest))
    else c :: replL old new rest
termination_by s => s.length
decreasing_by
  · have hlen : 0 < old.length := List.length_pos.mpr h.1
    simp only [List.length_drop, List.length_cons]
    omega
  · simp only [List.length_cons]
    omega

/-- Python `s.replace(old, new)` on strings. -/
def pyReplace (s old new : String) : String := ⟨replL old.toList new.toList s.toList⟩

/-- The key-cleaning step of `save_qwen`:
`k.replace("qwen3_4b.transformer.", "").replace("model.", "")`. -/
def cleanKey (k : String) : String :=
  pyReplace (pyReplace k "qwen3_4b.transformer." "") "model." ""

/-- A ComfyUI patch entry as `save_qwen` receives it: an arbitrarily nested
tuple/list structure holding tensors and numbers. -/
inductive PData where
  | tensor (t : ℚ) : PData
  | num (x : ℚ) : PData
  | seq (l : List PData) : PData

mutual

/-- The recursive `find_tensor` unpacker of `save_qwen`: the first tensor in
a depth-first traversal. -/
def find_tensor : PData → Option ℚ
  | .tensor t => some t
  | .num _ => none
  | .seq l => findTensorL l

/-- `find_tensor`'s loop over a list or tuple. -/
def findTensorL : List PData → Option ℚ
  | [] => none
  | x :: xs =>
    match find_tensor x with
    | some t => some t
    | none => findTensorL xs

end

mutual

/-- The recursive `find_strength` unpacker of `save_qwen`: the first number
in a depth-first traversal. -/
def find_strength : PData → Option ℚ
  | .num x => some x
  | .tensor _ => none
  | .seq l => findStrengthL l

/-- `find_strength`'s loop over a list or tuple. -/
def findStrengthL : List PData → Option ℚ
  | [] => none
  | x :: xs =>
    match find_strength x with
    | some x => some x
    | none => findStrengthL xs

end

/-- Generic Python dictionary lookup (later insertions shadow earlier). -/
def dictFind {α : Type} : List (String × α) → String → Option α
  | [], _ => none
  | (k, v) :: rest, n =>
    match dictFind rest n with
    | some r => some r
    | none => if n = k then some v else none

/-- One patch application of the accumulation loop of `save_qwen`:
`weight = weight + (p_tensor * p_strength)` when both unpackers succeed,
`weight` untouched otherwise.  (The best-effort reshape of the reference
tensor is the identity in the elementwise model.) -/
def applyPatch (w : ℚ) (p : PData) : ℚ :=
  match find_tensor p, find_strength p with
  | some t, some s => w + t * s
  | _, _ => w

/-- The `suffix_map` of `save_qwen`: cleaned RAM key to RAM key, built in
state-dict order. -/
def mkSuffixMap (ramKeys : List String) : List (String × String) :=
  ramKeys.map fun k => (cleanKey k, k)

/-- The per-template-key body of `save_qwen`: correlate the cleaned template
key against the suffix map, load the base weight, accumulate every stored
patch for the RAM key (falling back to the cleaned key), and cast to the
requested precision last.  `none` models a template key silently dropped for
lack of a match.  `cast` models `weight.to(dtype)`. -/
def reconcileKey (ram_sd : List (String × ℚ)) (patches : List (String × List PData))
    (cast : ℚ → ℚ) (orig_key : String) : Option ℚ :=
  let clean_orig := cleanKey orig_key
  match dictFind (mkSuffixMap (ram_sd.map Prod.fst)) clean_orig with
  | none => none
  | some ram_key =>
    match dictFind ram_sd ram_key with
    | none => none
    | some weight =>
      let ps :=
        match dictFind patches ram_key with
        | some l => l
        | none =>
          match dictFind patches clean_orig with
          | some l => l
          | none => []
      some (cast (ps.foldl applyPatch weight))

/-- `ArthemyQwenSaver.save_qwen` restricted to the tensor assembly: the
written state dict, one entry per matched template key. -/
def save_qwen (templateKeys : List String) (ram_sd : List (String × ℚ))
    (patches : List (String × List PData)) (cast : ℚ → ℚ) : List (String × ℚ) :=
  templateKeys.filterMap fun k => (reconcileKey ram_sd patches cast k).map fun w => (k, w)

/-! ### Concrete witness inputs -/

/-- Witness for C1 at a concrete one-block model with an empty backup
store. -/
def mWit : ZModel :=
  ⟨some ⟨some [[⟨"attn.q_proj", true, 3⟩, ⟨"norm1", false, 5⟩]], none, none, 7⟩⟩

/-- Empty backup store (fresh process). -/
def cWit : Cache := fun _ => none

/-- Model whose backbone exposes none of the three container attributes. -/
def mWitNoC : ZModel := ⟨some ⟨none, none, none, 0⟩⟩

/-! ### Backup/restore lemmas -/

lemma dictGet_isSome_of_mem {bd : LayerBackup} {n : String} {v : ℚ} (h : (n, v) ∈ bd) :
    (dictGet bd n).isSome := by
  induction bd with
  | nil => cases h
  | cons p rest ih =>
    obtain ⟨k, w⟩ := p
    rcases List.mem_cons.mp h with h | h
    · obtain ⟨hn, -⟩ := Prod.mk.injEq .. ▸ h
      subst hn
      cases hr : dictGet rest n with
      | some r => simp [dictGet, hr]
      | none => simp [dictGet, hr]
    · have hs := ih h
      cases hr : dictGet rest n with
      | some r => simp [dictGet, hr]
      | none => rw [hr] at hs; exact absurd hs (by simp)

lemma blockCovered_backupBlock (b : Block) : blockCovered (backupBlock b) b := by
  intro m hm hl
  apply dictGet_isSome_of_mem (v := m.w)
  exact List.mem_map_of_mem _ (List.mem_filter.mpr ⟨hm, hl⟩)

lemma covers_backup (lc : List Block) : covers (lc.map backupBlock) lc := by
  induction lc with
  | nil => trivial
  | cons b bs ih => exact ⟨blockCovered_backupBlock b, ih⟩

lemma restoreMod_restoreMod (bd : LayerBackup) (m : NModule) :
    restoreMod bd (restoreMod bd m) = restoreMod bd m := by
  obtain ⟨name, lin, w⟩ := m
  cases lin with
  | false => simp [restoreMod]
  | true =>
    cases hv : dictGet bd name with
    | none => simp [restoreMod, hv]
    | some v => simp [restoreMod, hv]

lemma restoreMod_scaleMod (bd : LayerBackup) (s : ℚ) (m : NModule)
    (h : m.isLinear = true → (dictGet bd m.name).isSome) :
    restoreMod bd (scaleMod s (restoreMod bd m)) = restoreMod bd m := by
  obtain ⟨name, lin, w⟩ := m
  cases lin with
  | false => simp [restoreMod, scaleMod]
  | true =>
    obtain ⟨v, hv⟩ := Option.isSome_iff_exists.mp (h rfl)
    simp [restoreMod, scaleMod, hv]

lemma restoreBlock_idem (bd : LayerBackup) (b : Block) :
    restoreBlock bd (restoreBlock bd b) = restoreBlock bd b := by
  unfold restoreBlock
  rw [List.map_map]
  exact List.map_congr_left fun m _ => restoreMod_restoreMod bd m

lemma restoreBlock_scale_cancel (bd : LayerBackup) (s : ℚ) (b : Block)
    (h : blockCovered bd b) :
    restoreBlock bd (scaleBlock s (restoreBlock bd b)) = restoreBlock bd b := by
  unfold restoreBlock scaleBlock
  rw [List.map_map, List.map_map]
  exact List.map_congr_left fun m hm => restoreMod_scaleMod bd s m (h m hm)

lemma restoreBlock_maybe_scale (bd : LayerBackup) (s : ℚ) (b : Block)
    (h : blockCovered bd b) :
    restoreBlock bd (if s = 1 then restoreBlock bd b else scaleBlock s (restoreBlock bd b))
      = restoreBlock bd b := by
  split
  · exact restoreBlock_idem bd b
  · exact restoreBlock_scale_cancel bd s b h

lemma restoreBlocks_applyScales (lw : Nat → ℚ) (bs : List Block) :
    ∀ (bk : ModelBackup) (n : Nat), covers bk bs →
    restoreBlocks bk (applyScales lw n (restoreBlocks bk bs)) = restoreBlocks bk bs := by
  induction bs with
  | nil => intro bk n _; cases bk <;> simp [restoreBlocks, applyScales]
  | cons b bs ih =>
    intro bk n h
    cases bk with
    | nil => exact absurd h (by simp [covers])
    | cons bd bk =>
      obtain ⟨h1, h2⟩ := h
      simp only [restoreBlocks, applyScales]
      rw [restoreBlock_maybe_scale bd (lw n) b h1, ih bk (n + 1) h2]

lemma container_setContainer {bb : Backbone} {c lc : List Block}
    (h : bb.container = some lc) : (bb.setContainer c).container = some c := by
  obtain ⟨ly, jb, bl, i⟩ := bb
  rcases ly with _ | l
  · rcases jb with _ | j
    · rcases bl with _ | bL
      · simp [Backbone.container] at h
      · simp [Backbone.container, Backbone.setContainer]
    · simp [Backbone.container, Backbone.setContainer]
  · simp [Backbone.container, Backbone.setContainer]

lemma bid_setContainer (bb : Backbone) (c : List Block) :
    (bb.setContainer c).bid = bb.bid := by
  obtain ⟨ly, jb, bl, i⟩ := bb
  unfold Backbone.setContainer
  split
  · rfl
  · split <;> rfl

lemma setContainer_setContainer (bb : Backbone) (c c' : List Block) :
    (bb.setContainer c).setContainer c' = bb.setContainer c' := by
  obtain ⟨ly, jb, bl, i⟩ := bb
  rcases ly with _ | l <;> rcases jb with _ | j <;>
    simp [Backbone.setContainer]

/-- A destructive run on a model whose container already holds a tuned state
`tuned`, under a cache holding a backup `bk` for this identity whose restore
phase lands `tuned` on the same state it lands the pristine container on,
produces the same model as a run on the pristine container. -/
lemma runTune_on_tuned (lw2 : Nat → ℚ) (tag2 mode2 : String) (bb : Backbone)
    (lc tuned : List Block) (bk : ModelBackup) (cache2 : Cache)
    (hc : bb.container = some lc)
    (hbk : cache2 bb.bid = some bk)
    (hres : restoreBlocks bk tuned = restoreBlocks bk lc) :
    (runTune lw2 tag2 mode2 ⟨some (bb.setContainer tuned)⟩ cache2).1
      = ⟨some (bb.setContainer (applyScales lw2 0 (restoreBlocks bk lc)))⟩ := by
  simp only [runTune, container_setContainer hc, bid_setContainer, hbk, runTuneOut,
    hres, setContainer_setContainer]

/-- Core of the idempotence and non-interference claims: a destructive run
whose restore phase starts from a covering backup absorbs any preceding run
on the same model identity — the second run's restore phase lands on the
same pristine state either way. -/
lemma runTune_absorb (lw lw2 : Nat → ℚ) (tag mode tag2 mode2 : String)
    (model : ZModel) (cache : Cache) (h : cacheOk model cache) :
    (runTune lw2 tag2 mode2 (runTune lw tag mode model cache).1
        (runTune lw tag mode model cache).2.2).1
      = (runTune lw2 tag2 mode2 model cache).1 := by
  cases hd : model.diffusion_model with
  | none => simp [runTune, hd]
  | some bb =>
    cases hc : bb.container with
    | none => simp [runTune, hd, hc]
    | some lc =>
      cases hb : cache bb.bid with
      | some bk =>
        have hcov : covers bk lc := h bb lc bk hd hc hb
        simp only [runTune, hd, hc, hb, runTuneOut]
        exact runTune_on_tuned lw2 tag2 mode2 bb lc _ bk cache hc hb
          (restoreBlocks_applyScales lw lc bk 0 hcov)
      | none =>
        have hcov : covers (lc.map backupBlock) lc := covers_backup lc
        have hbk : (fun n => if n = bb.bid then some (lc.map backupBlock) else cache n)
            bb.bid = some (lc.map backupBlock) := by simp
        simp only [runTune, hd, hc, hb, runTuneOut]
        exact runTune_on_tuned lw2 tag2 mode2 bb lc _ (lc.map backupBlock) _ hc hbk
          (restoreBlocks_applyScales lw lc (lc.map backupBlock) 0 hcov)

/-! ### Claim theorems: destructive strategy -/

/-- C1.  Destructive-with-restore idempotence: for both Z-Image live tuners,
invoking the tune operation twice in succession with identical inputs on a
model (under the backup-store invariant) yields exactly the same tensor
values as invoking it once — the restore phase recovers the first-encounter
snapshot before the resolved scales are applied. -/
theorem destructive_tune_idempotent (model : ZModel) (mode : String) (base : ℚ)
    (kw : String → Option ℚ) (cache cacheL : Cache)
    (h : cacheOk model cache) (hL : cacheOk model cacheL) :
    (tune_zimage (tune_zimage model mode base kw cache).1 mode base kw
        (tune_zimage model mode base kw cache).2.2).1
      = (tune_zimage model mode base kw cache).1
    ∧ (tune_zimage_lab (tune_zimage_lab model mode base kw cacheL).1 mode base kw
        (tune_zimage_lab model mode base kw cacheL).2.2).1
      = (tune_zimage_lab model mode base kw cacheL).1 :=
  ⟨runTune_absorb _ _ _ _ _ _ model cache h,
   runTune_absorb _ _ _ _ _ _ model cacheL hL⟩


theorem destructive_tune_idempotent_app :
    (tune_zimage (tune_zimage mWit "Real Value" 2 (fun _ => none) cWit).1 "Real Value" 2
        (fun _ => none) (tune_zimage mWit "Real Value" 2 (fun _ => none) cWit).2.2).1
      = (tune_zimage mWit "Real Value" 2 (fun _ => none) cWit).1
    ∧ (tune_zimage_lab (tune_zimage_lab mWit "Real Value" 2 (fun _ => none) cWit).1
        "Real Value" 2 (fun _ => none)
        (tune_zimage_lab mWit "Real Value" 2 (fun _ => none) cWit).2.2).1
      = (tune_zimage_lab mWit "Real Value" 2 (fun _ => none) cWit).1 :=
  destructive_tune_idempotent mWit "Real Value" 2 (fun _ => none) cWit cWit
    (fun bb lc bk _ _ h3 => by simp [cWit] at h3)
    (fun bb lc bk _ _ h3 => by simp [cWit] at h3)

/-- C4.  Non-interference: for both Z-Image live tuners, invoking the tune
operation with inputs A and then with inputs B yields the same tensor values
as invoking it with inputs B alone — the second run restores from the
first-encounter snapshot, not from A's output. -/
theorem destructive_tune_noninterference (model : ZModel)
    (modeA : String) (baseA : ℚ) (kwA : String → Option ℚ)
    (modeB : String) (baseB : ℚ) (kwB : String → Option ℚ)
    (cache cacheL : Cache) (h : cacheOk model cache) (hL : cacheOk model cacheL) :
    (tune_zimage (tune_zimage model modeA baseA kwA cache).1 modeB baseB kwB
        (tune_zimage model modeA baseA kwA cache).2.2).1
      = (tune_zimage model modeB baseB kwB cache).1
    ∧ (tune_zimage_lab (tune_zimage_lab model modeA baseA kwA cacheL).1 modeB baseB kwB
        (tune_zimage_lab model modeA baseA kwA cacheL).2.2).1
      = (tune_zimage_lab model modeB baseB kwB cacheL).1 :=
  ⟨runTune_absorb _ _ _ _ _ _ model cache h,
   runTune_absorb _ _ _ _ _ _ model cacheL hL⟩

theorem destructive_tune_noninterference_app :
    (tune_zimage (tune_zimage mWit "Soft Value" 0.5 (fun _ => some 1.5) cWit).1
        "Real Value" 2 (fun _ => none)
        (tune_zimage mWit "Soft Value" 0.5 (fun _ => some 1.5) cWit).2.2).1
      = (tune_zimage mWit "Real Value" 2 (fun _ => none) cWit).1
    ∧ (tune_zimage_lab (tune_zimage_lab mWit "Soft Value" 0.5 (fun _ => some 1.5) cWit).1
        "Real Value" 2 (fun _ => none)
        (tune_zimage_lab mWit "Soft Value" 0.5 (fun _ => some 1.5) cWit).2.2).1
      = (tune_zimage_lab mWit "Real Value" 2 (fun _ => none) cWit).1 :=
  destructive_tune_noninterference mWit "Soft Value" 0.5 (fun _ => some 1.5)
    "Real Value" 2 (fun _ => none) cWit cWit
    (fun bb lc bk _ _ h3 => by simp [cWit] at h3)
    (fun bb lc bk _ _ h3 => by simp [cWit] at h3)

/-- C7.  Structure-not-found: when the layer container cannot be located
under any of the probed attribute names, both destructive tune operations
return the original model handle with every tensor unchanged, leave the
backup store untouched, and report one of the two diagnostic strings (the
operations are total functions: no exception propagates). -/
theorem destructive_structure_not_found (model : ZModel) (mode : String) (base : ℚ)
    (kw : String → Option ℚ) (cache : Cache)
    (h : model.diffusion_model.bind Backbone.container = none) :
    ((tune_zimage model mode base kw cache).1 = model
      ∧ (tune_zimage model mode base kw cache).2.2 = cache
      ∧ ((tune_zimage model mode base kw cache).2.1 = "Error: Model Access Failed"
        ∨ (tune_zimage model mode base kw cache).2.1 = "Error: Unknown Model Structure"))
    ∧ ((tune_zimage_lab model mode base kw cache).1 = model
      ∧ (tune_zimage_lab model mode base kw cache).2.2 = cache
      ∧ ((tune_zimage_lab model mode base kw cache).2.1 = "Error: Model Access Failed"
        ∨ (tune_zimage_lab model mode base kw cache).2.1 = "Error: Unknown Model Structure")) := by
  cases hd : model.diffusion_model with
  | none => simp [tune_zimage, tune_zimage_lab, runTune, hd]
  | some bb =>
    rw [hd] at h
    have hc : bb.container = none := h
    simp [tune_zimage, tune_zimage_lab, runTune, hd, hc]


theorem destructive_structure_not_found_app :
    ((tune_zimage mWitNoC "Soft Value" 1 (fun _ => none) cWit).1 = mWitNoC
      ∧ (tune_zimage mWitNoC "Soft Value" 1 (fun _ => none) cWit).2.2 = cWit
      ∧ ((tune_zimage mWitNoC "Soft Value" 1 (fun _ => none) cWit).2.1
            = "Error: Model Access Failed"
        ∨ (tune_zimage mWitNoC "Soft Value" 1 (fun _ => none) cWit).2.1
            = "Error: Unknown Model Structure"))
    ∧ ((tune_zimage_lab mWitNoC "Soft Value" 1 (fun _ => none) cWit).1 = mWitNoC
      ∧ (tune_zimage_lab mWitNoC "Soft Value" 1 (fun _ => none) cWit).2.2 = cWit
      ∧ ((tune_zimage_lab mWitNoC "Soft Value" 1 (fun _ => none) cWit).2.1
            = "Error: Model Access Failed"
        ∨ (tune_zimage_lab mWitNoC "Soft Value" 1 (fun _ => none) cWit).2.1
            = "Error: Unknown Model Structure")) :=
  destructive_structure_not_found mWitNoC "Soft Value" 1 (fun _ => none) cWit rfl


/-! ### Claim theorems: patch tuners, resolvers, export -/

/-- C8.  Export round-trip: a matched reference tensor of value `v` with one
accumulated patch whose reference tensor is `v` and whose strength is `0.1`
reconciles to `v + v*0.1 = 1.1*v`, with the precision cast applied exactly
once, after the accumulation (the statement holds for an arbitrary cast
function, which is only possible when the cast comes last). -/
theorem export_reconciler_cast_last (cast : ℚ → ℚ) (v : ℚ) (k : String) (p : PData)
    (ht : find_tensor p = some v) (hs : find_strength p = some 0.1) :
    reconcileKey [(k, v)] [(k, [p])] cast k = some (cast (v + v * 0.1))
    ∧ save_qwen [k] [(k, v)] [(k, [p])] cast = [(k, cast (v + v * 0.1))]
    ∧ cast (v + v * 0.1) = cast (1.1 * v) := by
  have hrec : reconcileKey [(k, v)] [(k, [p])] cast k = some (cast (v + v * 0.1)) := by
    simp [reconcileKey, mkSuffixMap, dictFind, applyPatch, ht, hs]
  refine ⟨hrec, ?_, by ring_nf⟩
  simp [save_qwen, hrec]

theorem export_reconciler_cast_last_app :
    reconcileKey [("model.layers.0.q_proj.weight", 2)]
        [("model.layers.0.q_proj.weight", [PData.seq [PData.tensor 2, PData.num 0.1]])]
        (fun x => x / 3) "model.layers.0.q_proj.weight"
      = some ((fun x : ℚ => x / 3) (2 + 2 * 0.1))
    ∧ save_qwen ["model.layers.0.q_proj.weight"] [("model.layers.0.q_proj.weight", 2)]
        [("model.layers.0.q_proj.weight", [PData.seq [PData.tensor 2, PData.num 0.1]])]
        (fun x => x / 3)
      = [("model.layers.0.q_proj.weight", (fun x : ℚ => x / 3) (2 + 2 * 0.1))]
    ∧ (fun x : ℚ => x / 3) (2 + 2 * 0.1) = (fun x : ℚ => x / 3) (1.1 * 2) :=
  export_reconciler_cast_last (fun x => x / 3) 2 "model.layers.0.q_proj.weight"
    (PData.seq [PData.tensor 2, PData.num 0.1]) rfl rfl

/-- C2 counterexample.  A resolved final scale of exactly `1.0 + 5e-5` does
trigger patch registration in the Simple Qwen tuner: its guard is
`strength != 0`, not the `1e-4` epsilon, so the claim fails as stated for
"every tuner operation". -/
theorem qwen_patch_below_epsilon_cx :
    qwenSimpleTargetScale "Real Value" 1
        (fun n => if n = "Zone_1_Embedding_00_05" then some 1.00005 else some 1) 0
      = some 1.00005
    ∧ qwenSimpleKeyPatch "Real Value" 1
        (fun n => if n = "Zone_1_Embedding_00_05" then some 1.00005 else some 1)
        "model.layers.0.self_attn.q_proj.weight" 1
      = some (1, 0.00005) := by
  have hz : qwenSimpleTargetScale "Real Value" 1
      (fun n => if n = "Zone_1_Embedding_00_05" then some 1.00005 else some 1) 0
      = some 1.00005 := by
    simp [qwenSimpleTargetScale, qwenSimpleLayerScale, qwenZoneName, qwen_get_val]
  have h1 : (hasSub "model.layers.0.self_attn.q_proj.weight" "norm"
      || hasSub "model.layers.0.self_attn.q_proj.weight" "bias") = false := by decide
  have h2 : qwenFindIdx "model.layers.0.self_attn.q_proj.weight" = some 0 := by decide
  refine ⟨hz, ?_⟩
  simp [qwenSimpleKeyPatch, h1, h2, hz]
  norm_num

/-- C2 (amended).  The `1e-4` epsilon no-op policy belongs to the Z-Image
checkpoint tuner: there, any tensor whose resolved scale is within `1e-4` of
identity (a scale of `1.0 + 5e-5` in particular) is left untouched. -/
theorem zimage_epsilon_skip (p : ZimageParams) (u : Bool) (key : String) (t : ℚ)
    (h : |(zimageSimpleResolve p key).1 - 1| ≤ 0.0001) :
    zimageEntryTune p u key t = t := by
  simp [zimageEntryTune, not_lt.mpr h]

theorem zimage_epsilon_skip_app :
    zimageEntryTune (zimageSimpleParams "Real Value" 1 1.00005 1 1 1 1 1 1 1 1 1) false
      "layers.0.attn_q.weight" 7 = 7 :=
  zimage_epsilon_skip (zimageSimpleParams "Real Value" 1 1.00005 1 1 1 1 1 1 1 1 1) false
    "layers.0.attn_q.weight" 7 (by
      have h1 : zimageLayerIdx "layers.0.attn_q.weight" = some 0 := by decide
      have h2 : startsWithP "layers.0.attn_q.weight" "layers." = true := by decide
      have h3 : hasSub "layers.0.attn_q.weight" "attention" = false := by decide
      have h4 : hasSub "layers.0.attn_q.weight" "feed_forward" = false := by decide
      simp [zimageSimpleResolve, h1, h2, h3, h4, zimageSimpleParams, zimage_calc_final,
        zimage_get_val]
      norm_num [abs_le])

/-- C3 counterexample.  In SOFT mode the Z-Image checkpoint tuner's
`calc_final` ignores the base multiplier entirely: at group value 1.0 and
base 2.0 the final scale is 1.0, not
`transform(1.0, SOFT) * transform(2.0, SOFT) = 1.2`. -/
theorem zimage_soft_base_ignored_cx :
    zimage_calc_final "Soft Value" 2 1 = 1
    ∧ zimage_get_val "Soft Value" 1 * zimage_get_val "Soft Value" 2 = 1.2
    ∧ (1 : ℚ) ≠ 1.2 := by
  refine ⟨?_, ?_, by norm_num⟩ <;>
    norm_num [zimage_calc_final, zimage_get_val,
      show ("Soft Value" : String) ≠ "Real Value" from by decide]

/-- C3 (amended).  In SOFT mode the Qwen tuners (simple and live) and the
Z-Image live tuner compose the final per-index scale as
`transform(group_value) * transform(base)`; the Z-Image checkpoint tuner
does not: its SOFT final scale is `transform(group_value)` alone, the base
multiplier being applied only in REAL mode. -/
theorem soft_mode_composition (base : ℚ) (kw : String → Option ℚ)
    (idxQ idxB idxZ : Nat) (gq gb gz : String)
    (hq : qwenZoneName idxQ = some gq)
    (hb : qwenBandName idxB = some gb)
    (hz : zitStageName idxZ = some gz) :
    qwenSimpleTargetScale "Soft Value" base kw idxQ
      = some (qwen_get_val "Soft Value" ((kw gq).getD 1) * qwen_get_val "Soft Value" base)
    ∧ qwenLiveLayerMap "Soft Value" base kw idxB
      = some (qwenLive_get_target_weight "Soft Value" ((kw gb).getD 1)
          * qwenLive_get_target_weight "Soft Value" base)
    ∧ zitLayerWeights "Soft Value" base kw idxZ
      = zit_get_target_weight "Soft Value" ((kw gz).getD 1)
          * zit_get_target_weight "Soft Value" base
    ∧ (∀ g : ℚ, zimage_calc_final "Soft Value" base g = zimage_get_val "Soft Value" g) := by
  refine ⟨?_, ?_, ?_, ?_⟩
  · simp [qwenSimpleTargetScale, qwenSimpleLayerScale, hq]
  · simp [qwenLiveLayerMap, hb]
  · simp [zitLayerWeights, hz]
  · intro g
    simp [zimage_calc_final]

theorem soft_mode_composition_app :
    qwenSimpleTargetScale "Soft Value" 0.7 (fun _ => some 1.5) 7
      = some (qwen_get_val "Soft Value" (((fun _ : String => some (1.5 : ℚ)) "Zone_2_Syntax_Low_06_11").getD 1)
          * qwen_get_val "Soft Value" 0.7)
    ∧ qwenLiveLayerMap "Soft Value" 0.7 (fun _ => some 1.5) 7
      = some (qwenLive_get_target_weight "Soft Value"
            (((fun _ : String => some (1.5 : ℚ)) "LLM_Syntax_Parsing").getD 1)
          * qwenLive_get_target_weight "Soft Value" 0.7)
    ∧ zitLayerWeights "Soft Value" 0.7 (fun _ => some 1.5) 7
      = zit_get_target_weight "Soft Value"
            (((fun _ : String => some (1.5 : ℚ)) "STAGE_2_Spatial_Layout").getD 1)
          * zit_get_target_weight "Soft Value" 0.7
    ∧ (∀ g : ℚ, zimage_calc_final "Soft Value" 0.7 g = zimage_get_val "Soft Value" g) :=
  soft_mode_composition 0.7 (fun _ => some 1.5) 7 7 7
    "Zone_2_Syntax_Low_06_11" "LLM_Syntax_Parsing" "STAGE_2_Spatial_Layout"
    (by decide) (by decide) (by decide)

/-- C5 counterexample.  A bias tensor of an indexed layer is scaled by the
Z-Image checkpoint tuner under the default flags: key
`layers.0.q_proj.bias` with block-1 scale 2.0 in REAL mode is doubled, so
bias keys are not excluded there. -/
theorem zimage_bias_scaled_cx :
    zimageEntryTune (zimageSimpleParams "Real Value" 1 2 1 1 1 1 1 1 1 1 1) false
      "layers.0.q_proj.bias" 1 = 2
    ∧ (2 : ℚ) ≠ 1 := by
  have h1 : (!hasSub "layers.0.q_proj.bias" "weight"
      && !hasSub "layers.0.q_proj.bias" "bias") = false := by decide
  have h2 : (hasSub "layers.0.q_proj.bias" "norm"
      || hasSub "layers.0.q_proj.bias" "adaLN") = false := by decide
  have h3 : startsWithP "layers.0.q_proj.bias" "layers." = true := by decide
  have h4 : zimageLayerIdx "layers.0.q_proj.bias" = some 0 := by decide
  have h5 : hasSub "layers.0.q_proj.bias" "attention" = false := by decide
  have h6 : hasSub "layers.0.q_proj.bias" "feed_forward" = false := by decide
  refine ⟨?_, by norm_num⟩
  simp only [zimageEntryTune, zimageSimpleResolve, h1, h2, h3, h4, h5, h6]
  simp [zimageSimpleParams, zimage_calc_final, zimage_get_val]
  norm_num

/-- C5 (amended).  Normalization-marked keys are excluded by default by the
Z-Image checkpoint tuner (opt-in flag unset) and norm/bias-marked keys are
excluded unconditionally by all three Qwen patch tuners; bias keys of
indexed layers are, however, scaled by the Z-Image checkpoint tuner. -/
theorem norm_bias_exclusion (p : ZimageParams) (mode : String) (base : ℚ)
    (kw : String → Option ℚ) (key : String) (t : ℚ)
    (hn : hasSub key "norm" = true ∨ hasSub key "bias" = true) :
    (hasSub key "norm" = true → zimageEntryTune p false key t = t)
    ∧ qwenSimpleKeyPatch mode base kw key t = none
    ∧ qwenLiveKeyPatch mode base kw key t = none
    ∧ qwenLabKeyPatch mode base kw key t = none := by
  refine ⟨fun h1 => by simp [zimageEntryTune, h1], ?_, ?_, ?_⟩ <;>
    · rcases hn with h | h <;>
        simp [qwenSimpleKeyPatch, qwenLiveKeyPatch, qwenLabKeyPatch, h]

theorem norm_bias_exclusion_app :
    (hasSub "model.layers.0.input_layernorm.weight" "norm" = true →
      zimageEntryTune (zimageSimpleParams "Real Value" 1 2 1 1 1 1 1 1 1 1 1) false
        "model.layers.0.input_layernorm.weight" 5 = 5)
    ∧ qwenSimpleKeyPatch "Soft Value" 1.5 (fun _ => none)
        "model.layers.0.input_layernorm.weight" 5 = none
    ∧ qwenLiveKeyPatch "Soft Value" 1.5 (fun _ => none)
        "model.layers.0.input_layernorm.weight" 5 = none
    ∧ qwenLabKeyPatch "Soft Value" 1.5 (fun _ => none)
        "model.layers.0.input_layernorm.weight" 5 = none :=
  norm_bias_exclusion (zimageSimpleParams "Real Value" 1 2 1 1 1 1 1 1 1 1 1)
    "Soft Value" 1.5 (fun _ => none) "model.layers.0.input_layernorm.weight" 5
    (Or.inl (by decide))

/-- C6 counterexample.  No single resolver handles both key forms: the Qwen
regex resolver (whose pattern anchors a dot before `layers`) finds no index
in `layers.7.attention.q_proj.weight`, and the Z-Image positional resolver
finds no index in the alternate-prefix key `model.layers.7.q_proj.weight`. -/
theorem resolver_alternate_form_cx :
    qwenFindIdx "layers.7.attention.q_proj.weight" = none
    ∧ zimageLayerIdx "model.layers.7.q_proj.weight" = none := by
  exact ⟨by decide, by decide⟩

/-- C6 (amended).  The Z-Image positional resolver returns index 7 for
`layers.7.attention.q_proj.weight` and classifies `final_layer.weight` with
the last block-group's scale `b6`; the Qwen regex resolver returns index 7
for the alternate-prefix key `model.layers.7.q_proj.weight` (and no index
for `final_layer.weight`); each resolver misses the other's key form. -/
theorem resolver_key_resolution (p : ZimageParams) :
    zimageLayerIdx "layers.7.attention.q_proj.weight" = some 7
    ∧ qwenFindIdx "model.layers.7.q_proj.weight" = some 7
    ∧ zimageSimpleResolve p "final_layer.weight" = (p.b6, true)
    ∧ qwenFindIdx "final_layer.weight" = none
    ∧ qwenFindIdx "layers.7.attention.q_proj.weight" = none
    ∧ zimageLayerIdx "model.layers.7.q_proj.weight" = none := by
  have h1 : startsWithP "final_layer.weight" "layers." = false := by decide
  have h2 : hasSub "final_layer.weight" "embedder" = false := by decide
  have h3 : hasSub "final_layer.weight" "refiner" = false := by decide
  have h4 : hasSub "final_layer.weight" "final_layer" = true := by decide
  exact ⟨by decide, by decide, by simp [zimageSimpleResolve, h1, h2, h3, h4],
    by decide, by decide, by decide⟩

/-- C9.  End-to-end zone scenario on the 6-zone/36-layer Simple Qwen tuner:
with base multiplier 1.0 in SOFT mode and the zone of layer `idx` set to
1.5, the per-layer multiplier for every index of that zone is
`(0.8 + 0.2*1.5) * (0.8 + 0.2*1.0) = 1.10`, and every matched non-norm,
non-bias tensor of the zone is registered with patch strength `0.10`. -/
theorem end_to_end_zone_scenario (kw : String → Option ℚ) (idx : Nat)
    (g key : String) (t : ℚ)
    (hg : qwenZoneName idx = some g)
    (hkw : kw g = some 1.5)
    (hkey : qwenFindIdx key = some idx)
    (hnb : (hasSub key "norm" || hasSub key "bias") = false) :
    qwenSimpleTargetScale "Soft Value" 1 kw idx = some 1.1
    ∧ qwenSimpleKeyPatch "Soft Value" 1 kw key t = some (t, 0.1) := by
  have hne : ("Soft Value" : String) ≠ "Real Value" := by decide
  have h1 : qwenSimpleTargetScale "Soft Value" 1 kw idx = some 1.1 := by
    simp only [qwenSimpleTargetScale, qwenSimpleLayerScale, hg, Option.map_some,
      Option.some.injEq]
    norm_num [qwen_get_val, hkw, hne]
  refine ⟨h1, ?_⟩
  simp only [qwenSimpleKeyPatch, hnb, Bool.false_eq_true, if_false, hkey, h1]
  norm_num

theorem end_to_end_zone_scenario_app :
    qwenSimpleTargetScale "Soft Value" 1
        (fun n => if n = "Zone_2_Syntax_Low_06_11" then some 1.5 else some 1) 7
      = some 1.1
    ∧ qwenSimpleKeyPatch "Soft Value" 1
        (fun n => if n = "Zone_2_Syntax_Low_06_11" then some 1.5 else some 1)
        "model.layers.7.q_proj.weight" 4
      = some (4, 0.1) :=
  end_to_end_zone_scenario
    (fun n => if n = "Zone_2_Syntax_Low_06_11" then some 1.5 else some 1) 7
    "Zone_2_Syntax_Low_06_11" "model.layers.7.q_proj.weight" 4
    (by decide) (by simp) (by decide) (by decide)

/-- C10.  In the Lab live Qwen tuner, a key without a norm or bias marker
that matches neither layer-index pattern (an embedder or the output head)
still receives a patch of strength `transform(base) - 1` whenever that
strength is nonzero, because `target_scale` starts at `w_base`; the other
patch tuners (live non-Lab and Simple) register no patch for such keys. -/
theorem lab_base_on_nonindexed (mode : String) (base : ℚ) (kw : String → Option ℚ)
    (key : String) (t : ℚ)
    (hn : hasSub key "norm" = false) (hb : hasSub key "bias" = false)
    (hidx : qwenFindIdx key = none) :
    (qwenLive_get_target_weight mode base - 1 ≠ 0 →
      qwenLabKeyPatch mode base kw key t
        = some (t, qwenLive_get_target_weight mode base - 1))
    ∧ qwenLiveKeyPatch mode base kw key t = none
    ∧ qwenSimpleKeyPatch mode base kw key t = none := by
  refine ⟨fun hs => ?_, ?_, ?_⟩
  · simp [qwenLabKeyPatch, hn, hb, hidx, hs]
  · simp [qwenLiveKeyPatch, hn, hb, hidx]
  · simp [qwenSimpleKeyPatch, hn, hb, hidx]

theorem lab_base_on_nonindexed_app :
    (qwenLive_get_target_weight "Soft Value" 1.5 - 1 ≠ 0 →
      qwenLabKeyPatch "Soft Value" 1.5 (fun _ => none) "model.embed_tokens.weight" 5
        = some (5, qwenLive_get_target_weight "Soft Value" 1.5 - 1))
    ∧ qwenLiveKeyPatch "Soft Value" 1.5 (fun _ => none) "model.embed_tokens.weight" 5
        = none
    ∧ qwenSimpleKeyPatch "Soft Value" 1.5 (fun _ => none) "model.embed_tokens.weight" 5
        = none :=
  lab_base_on_nonindexed "Soft Value" 1.5 (fun _ => none) "model.embed_tokens.weight" 5
    (by decide) (by decide) (by decide)
